import Mathlib

/-!
Verification of the `test_oe_api` repository: a FastAPI proxy around the
Open Electricity market API (`src/app.py`) and a stand-alone network-tariff
calculator (`src/network_charge.py`).

The Python code is embedded shallowly:

* JSON values (the result of `response.json()`) become the inductive `JVal`;
  Python truthiness, `dict.get`, the `or` operator and `str()` are modelled
  by `pyTruthy`, `objGet`, `pyOr` and `pyStr`.
* Numeric values are read as exact rationals (`ℚ`), with JSON's two
  Python number types kept apart: `JVal.num` for floats, `JVal.int` for
  arbitrary-precision ints.  `isinstance(x, (int, float))` is true for
  Python `bool`s, which `float()` maps to `1.0` / `0.0`; `asNum`
  reproduces this.
* `_extract_prices` can raise, so it is embedded as a function into
  `Except String (List ℚ)`; an `Except.error` models an uncaught Python
  exception.  It has two raise paths: `AttributeError` when a result
  carries a truthy non-dict `columns` value, and `OverflowError` when
  `float(...)` receives an int beyond double range.  The development has
  two extraction pipelines over the same row semantics: `extract_prices`
  reads converted numbers exactly and is used for the filtering and
  averaging properties, and `extract_prices_exact` additionally
  propagates the `OverflowError`, which is what the totality property is
  about.
* The endpoint handler `get_average_price` becomes a pure function of the
  credential environment and of the outcome of the single upstream HTTP
  call, returning its HTTP-level result paired with a flag recording
  whether the outbound call was attempted.
* `calculate_local_price` falls off the end of the function for months
  outside the summer and winter sets, which in Python returns `None`; it is
  embedded as a function into `Option ℚ`.
-/

/-- A JSON value as produced by Python's `response.json()`: `None`, `bool`,
a number, a string, a list, or an object (a `dict`, modelled as an
association list with distinct keys).  Python's JSON decoder produces two
distinct numeric types — `float` for literals with a fraction or exponent
(modelled as an exact rational in `num`) and arbitrary-precision `int` for
integer literals (`int`).  The distinction matters: `float(x)` is the
identity on floats but raises `OverflowError` on an int beyond double
range, a raise path tracked by `floatRaises` and the exact extraction
pipeline `extract_prices_exact`. -/
inductive JVal where
  | null : JVal
  | bool (b : Bool) : JVal
  | num (q : ℚ) : JVal
  | int (n : ℤ) : JVal
  | str (s : String) : JVal
  | arr (xs : List JVal) : JVal
  | obj (kvs : List (String × JVal)) : JVal

/-- Python truthiness (`bool(v)`) of a JSON value: `None`, `False`, `0`,
`""`, `[]` and `{}` are falsy, everything else is truthy. -/
def pyTruthy : JVal → Bool
  | .null => false
  | .bool b => b
  | .num q => q != 0
  | .int n => n != 0
  | .str s => s != ""
  | .arr xs => !xs.isEmpty
  | .obj kvs => !kvs.isEmpty

/-- Python's `d.get(k)`: the value stored under `k`, or `None` when the key
is absent.  Dicts coming from JSON have distinct keys, so taking the first
match is faithful. -/
def objGet (kvs : List (String × JVal)) (k : String) : JVal :=
  match kvs.find? (fun p => p.1 == k) with
  | some p => p.2
  | none => .null

/-- Whether a key is present in the object (Python `k in d`). -/
def hasKey (kvs : List (String × JVal)) (k : String) : Bool :=
  (kvs.find? (fun p => p.1 == k)).isSome

/-- Python's `a or b`: `a` when `a` is truthy, otherwise `b` (whatever its
truthiness). -/
def pyOr (a b : JVal) : JVal :=
  if pyTruthy a then a else b

/-- Python's `isinstance(v, (int, float))` followed by `float(v)`, under
the exact-arithmetic idealization: the converted value is read exactly
(floats stay themselves, ints convert to their exact rational value,
`bool` — a subclass of `int` in Python — converts to `1.0`/`0.0`).
This function gives the value `float(v)` produces whenever it returns;
the case where `float(v)` instead raises `OverflowError` (an int beyond
double range) is tracked separately by `floatRaises`, and the exact
extraction pipeline `extract_prices_exact` propagates that raise. -/
def asNum : JVal → Option ℚ
  | .num q => some q
  | .int n => some (n : ℚ)
  | .bool b => some (if b then 1 else 0)
  | _ => none

/-- Python's `str.upper()`, mapping each character to upper case (the
strings at play are ASCII region codes).  Extensionally equal to Lean's
`String.toUpper` (see `pyUpper_eq_toUpper`), but defined by a structural
map over the character list so that it evaluates by `rfl`/`decide`. -/
def pyUpper (s : String) : String := ⟨s.data.map Char.toUpper⟩

/-- Python `str(v)` as applied to the region value (`app.py` line 77).
Scalar renderings match CPython exactly.  For containers CPython renders
the full nested `repr`; the model keeps only the surrounding bracket,
which is the only fact the code path ever uses: a container rendering
begins with a bracket and therefore can never equal `"NSW1"`. -/
def pyStr : JVal → String
  | .null => "None"
  | .bool true => "True"
  | .bool false => "False"
  | .num q => toString q
  | .int n => toString n
  | .str s => s
  | .arr _ => "[...]"
  | .obj _ => "\x7b...\x7d"

/- ----------------------------------------------------------------- -/
/- `src/network_charge.py`                                           -/
/- ----------------------------------------------------------------- -/

/-- The peak charge: `32.1695` c/kWh, converted to $/MWh by the `* 10`
on line 9 of `network_charge.py`. -/
def PEAK_CHARGE : ℚ := 32.1695 * 10

/-- The off-peak charge: `5.6688` c/kWh, converted to $/MWh by the `* 10`
on line 10 of `network_charge.py`. -/
def OFFPEAK_CHARGE : ℚ := 5.6688 * 10

/-- The two fields of the `datetime.datetime` argument that
`calculate_local_price` reads: calendar month (1–12) and hour (0–23). -/
structure PyDateTime where
  month : ℕ
  hour : ℕ
deriving DecidableEq

/-- Function `calculate_local_price` from `src/network_charge.py`.  The source has
no `else` branch for the outer month test: for months outside both the
summer list `[11, 12, 1, 2, 3]` and the winter list `[6, 7, 8]` control
falls off the end of the Python function, which returns `None` — hence
the `Option ℚ` codomain. -/
def calculate_local_price (datetime : PyDateTime) : Option ℚ :=
  let month := datetime.month
  let hour := datetime.hour
  if month ∈ ([11, 12, 1, 2, 3] : List ℕ) ∨ month ∈ ([6, 7, 8] : List ℕ) then
    if hour ≥ 15 ∧ hour < 21 then
      some PEAK_CHARGE
    else
      some OFFPEAK_CHARGE
  else
    none

/- ----------------------------------------------------------------- -/
/- `src/app.py`: module constants and `_extract_prices`              -/
/- ----------------------------------------------------------------- -/

/-- Constant `NETWORK_REGION` (`app.py` line 13). -/
def NETWORK_REGION : String := "NSW1"

/-- Constant `INTERVAL` (`app.py` line 14). -/
def INTERVAL : String := "5m"

/-- Constant `METRIC` (`app.py` line 15). -/
def METRIC : String := "price"

/-- Constant `MIN_POINTS` (`app.py` line 16). -/
def MIN_POINTS : ℕ := 3

/-- The test `series.get("metric") != METRIC` (`app.py` line 65), negated:
Python equality between an arbitrary JSON value and the string `"price"`
holds exactly when the value is that string. -/
def metricMatches (v : JVal) : Bool :=
  match v with
  | .str s => s == METRIC
  | _ => false

/-- The per-row body of the innermost loop of `_extract_prices`
(`app.py` lines 83–92): the value the row contributes, if any.

* a list (or tuple) of length ≥ 2 whose second element is numeric
  contributes `float(row[1])`;
* a dict contributes `float(val)` where
  `val = row.get("value") or row.get("price") or row.get("v")`,
  provided `val` is numeric (note the truthiness chain: a falsy `value`
  or `price` falls through, and the raw `v` entry is kept whatever it is);
* a bare number (including a bool) contributes itself;
* anything else contributes nothing. -/
def rowValue : JVal → Option ℚ
  | .arr xs => if 2 ≤ xs.length then (xs.get? 1).bind asNum else none
  | .obj kvs =>
      asNum (pyOr (objGet kvs "value") (pyOr (objGet kvs "price") (objGet kvs "v")))
  | .num q => some q
  | .int n => some (n : ℚ)
  | .bool b => some (if b then 1 else 0)
  | _ => none

/-- The region value computed on `app.py` line 76: the truthiness chain
`cols.get("region") or cols.get("network_region") or cols.get("code")`. -/
def regionOf (ckvs : List (String × JVal)) : JVal :=
  pyOr (objGet ckvs "region")
    (pyOr (objGet ckvs "network_region") (objGet ckvs "code"))

/-- The body of the `for result in results` loop (`app.py` lines 72–92),
for one `result`: the list of values its rows contribute, or an error
when the Python code raises.  A non-dict `result` is skipped.  The
`columns` value is replaced by `{}` when falsy (`or {}`, line 75); a
truthy non-dict `columns` makes `cols.get("region")` raise
`AttributeError`.  This idealized pipeline reads every converted number
exactly; the `OverflowError` that `float(...)` raises on an int beyond
double range is propagated by `processResultExact` instead.
The region is the truthiness chain over the `region`, `network_region`
and `code` columns; a truthy region whose `str(...).upper()` differs
from `NETWORK_REGION` excludes the result (line 77).  The rows value is
replaced by `[]` when falsy (`or []`, line 80) and the result is skipped
when it is not a list (line 81). -/
def processResult (result : JVal) : Except String (List ℚ) :=
  match result with
  | .obj kvs =>
      match (if pyTruthy (objGet kvs "columns") then objGet kvs "columns"
             else .obj []) with
      | .obj ckvs =>
          if pyTruthy (regionOf ckvs) = true ∧
              pyUpper (pyStr (regionOf ckvs)) ≠ NETWORK_REGION then
            .ok []
          else
            match (if pyTruthy (objGet kvs "data") then objGet kvs "data"
                   else .arr []) with
            | .arr rs => .ok (rs.filterMap rowValue)
            | _ => .ok []
      | _ => .error "AttributeError"
  | _ => .ok []

/-- Runs `f` over each element in order, concatenating the collected
values; the first error aborts the iteration, as an uncaught Python
exception aborts the loop. -/
def collectE (f : JVal → Except String (List ℚ)) : List JVal → Except String (List ℚ)
  | [] => .ok []
  | x :: xs => do
      let v ← f x
      let rest ← collectE f xs
      .ok (v ++ rest)

/-- The body of the `for series in series_list` loop (`app.py` lines
62–92), for one `series`: non-dicts and series with a non-matching
metric are skipped, as are series whose `results` entry is not a list. -/
def processSeries (series : JVal) : Except String (List ℚ) :=
  match series with
  | .obj kvs =>
      if metricMatches (objGet kvs "metric") then
        match objGet kvs "results" with
        | .arr rs => collectE processResult rs
        | _ => .ok []
      else .ok []
  | _ => .ok []

/-- Function `_extract_prices` (`app.py` lines 56–94).  `data` is the payload's
`data` entry when the payload is a dict, else `[]` (line 57); the series
list is `data` when it is a list, else `[]` (line 58).  Returns the
collected numeric values in document order, or the uncaught Python
exception. -/
def extract_prices (payload : JVal) : Except String (List ℚ) :=
  let data : JVal :=
    match payload with
    | .obj kvs => objGet kvs "data"
    | _ => .arr []
  let series_list : List JVal :=
    match data with
    | .arr xs => xs
    | _ => []
  collectE processSeries series_list

/- ----------------------------------------------------------------- -/
/- `src/app.py`: the `/average-price` endpoint                       -/
/- ----------------------------------------------------------------- -/

/-- Line 36 of `app.py`: `token = os.getenv("OPENELECTRICITY_API_TOKEN") or
os.getenv("OPEN_ELECTRICITY_API_KEY")` (`app.py` line 36): an unset
variable is `None`; an empty value is falsy and falls through to the
second variable. -/
def resolveToken (tokenVar keyVar : Option String) : Option String :=
  match tokenVar with
  | some s => if s == "" then keyVar else some s
  | none => keyVar

/-- Python truthiness of `token` (`if not token`, `app.py` line 37). -/
def tokenTruthy : Option String → Bool
  | some s => s != ""
  | none => false

/-- The upstream HTTP response as the handler observes it:
`response.status_code`, `response.text` and the parsed `response.json()`. -/
structure UpstreamResponse where
  status_code : ℕ
  text : String
  json : JVal

/-- Outcome of the single `client.get` call: either a transport-level
`httpx.HTTPError` (with its message) or a response. -/
inductive UpstreamOutcome where
  | transportError (msg : String) : UpstreamOutcome
  | response (r : UpstreamResponse) : UpstreamOutcome

/-- The JSON body of a successful `/average-price` response
(`app.py` lines 126–133). -/
structure AvgPriceResponse where
  network_region : String
  interval : String
  points_used : ℕ
  price_points : List ℚ
  average_price : ℚ
  units : String
deriving DecidableEq

/-- What a request to `/average-price` produces: a success body, an
`HTTPException` (status code and detail), or an uncaught Python
exception (which FastAPI would turn into a generic 500). -/
inductive EndpointResult where
  | ok (resp : AvgPriceResponse) : EndpointResult
  | httpError (status_code : ℕ) (detail : String) : EndpointResult
  | pyError (msg : String) : EndpointResult
deriving DecidableEq

/-- Handler `get_average_price` (`app.py` lines 97–133) as a function of the two
credential environment variables and of the outcome of the upstream
call.  The second component records whether the outbound network call
was attempted: `_get_auth_header()` is evaluated before `client.get`
fires, so a missing credential raises the 500 `HTTPException` with no
call attempted (the `HTTPException` is not an `httpx.HTTPError`, so the
`except` clause does not catch it).  A transport error becomes a 502; an
upstream status ≥ 400 is forwarded with `response.text` as the detail;
otherwise the prices are extracted from `response.json()`, fewer than
`MIN_POINTS` of them is a 502, and the success body reports the last
`MIN_POINTS` values (`values[-MIN_POINTS:]`) and their mean. -/
def get_average_price (tokenVar keyVar : Option String)
    (upstream : UpstreamOutcome) : EndpointResult × Bool :=
  if tokenTruthy (resolveToken tokenVar keyVar) = false then
    (.httpError 500 "OPENELECTRICITY_API_TOKEN or OPEN_ELECTRICITY_API_KEY is not set",
     false)
  else
    match upstream with
    | .transportError msg =>
        (.httpError 502 ("Upstream request failed: " ++ msg), true)
    | .response r =>
        if 400 ≤ r.status_code then
          (.httpError r.status_code r.text, true)
        else
          match extract_prices r.json with
          | .error e => (.pyError e, true)
          | .ok values =>
              if values.length < MIN_POINTS then
                (.httpError 502 "Upstream response did not contain enough price points",
                 true)
              else
                let last_three := values.drop (values.length - MIN_POINTS)
                (.ok { network_region := NETWORK_REGION
                       interval := INTERVAL
                       points_used := last_three.length
                       price_points := last_three
                       average_price := last_three.sum / (last_three.length : ℚ)
                       units := "$ / MWh" },
                 true)

/- ----------------------------------------------------------------- -/
/- Concrete payload builders used by the theorems below              -/
/- ----------------------------------------------------------------- -/

deriving instance DecidableEq for Except

/-- A result object with the given `columns` value and row list, as the
upstream API shapes them. -/
def mkResult (cols : JVal) (rows : List JVal) : JVal :=
  .obj [("columns", cols), ("data", .arr rows)]

/-- A payload with a single `"price"` series holding the given results. -/
def mkPayload (results : List JVal) : JVal :=
  .obj [("data", .arr [.obj [("metric", .str METRIC), ("results", .arr results)]])]

/-- A payload with a single `"price"` series holding a single result. -/
def mkPayload1 (cols : JVal) (rows : List JVal) : JVal :=
  mkPayload [mkResult cols rows]

/-- An array-pair row `[timestamp, value]`. -/
def mkRow (v : ℚ) : JVal := .arr [.str "2025-01-01T00:00:00", .num v]

/-- Decidable well-formedness of one result's column metadata: its
`columns` entry (when the result is a dict) is falsy or a dict, so that
`processResult` cannot hit the `AttributeError` branch. -/
def resultColsOk (result : JVal) : Bool :=
  match result with
  | .obj kvs =>
      let c := objGet kvs "columns"
      !pyTruthy c ||
        (match c with
         | .obj _ => true
         | _ => false)
  | _ => true

/-- Whether the extraction completed without raising (returned a value
rather than an uncaught exception). -/
def extractionOk (e : Except String (List ℚ)) : Bool :=
  match e with
  | .ok _ => true
  | .error _ => false

/- ----------------------------------------------------------------- -/
/- The exact extraction pipeline: CPython `float()` overflow         -/
/- ----------------------------------------------------------------- -/

/-- The smallest magnitude at which CPython's `float(n)` on an `int`
raises `OverflowError`: the largest double is `2^1024 − 2^971`, and
round-to-nearest-even sends every integer of magnitude at least
`2^1024 − 2^970` (the midpoint between the largest double and `2^1024`)
to infinity, which `float()` reports as an overflow. -/
def FLOAT_OVERFLOW_BOUND : ℕ := 2 ^ 1024 - 2 ^ 970

/-- Whether `float(n)` raises `OverflowError` for the Python int `n`. -/
def floatOverflows (n : ℤ) : Bool :=
  decide (FLOAT_OVERFLOW_BOUND ≤ n.natAbs)

/-- Whether `float(v)` raises on this value after it has passed the
`isinstance(v, (int, float))` test: only an int beyond double range
does; floats and bools never raise, and non-numbers never reach the
conversion. -/
def floatRaises : JVal → Bool
  | .int n => floatOverflows n
  | _ => false

/-- Whether processing this row (`app.py` lines 83–92) raises: the
`float(...)` call on lines 86, 90 or 92 receives an int beyond double
range.  An array row converts its second element when it has one and
the length test passes; an object row converts the result of the
`value`/`price`/`v` truthiness chain; a bare numeric row converts
itself; every other shape performs no conversion. -/
def rowRaises : JVal → Bool
  | .arr xs =>
      match xs.get? 1 with
      | some v => floatRaises v
      | none => false
  | .obj kvs =>
      floatRaises (pyOr (objGet kvs "value")
        (pyOr (objGet kvs "price") (objGet kvs "v")))
  | v => floatRaises v

/-- The rows loop of the exact extraction pipeline (`app.py` lines
80–92), applied to the rows value: a non-list is skipped; a list
containing a row whose `float(...)` call overflows produces the
uncaught `OverflowError` (the values appended before the raising row
are discarded, as the exception propagates out of `_extract_prices`);
otherwise every row contributes through `rowValue`. -/
def rowsDispatchExact (v : JVal) : Except String (List ℚ) :=
  match v with
  | .arr rs =>
      if rs.any rowRaises then .error "OverflowError"
      else .ok (rs.filterMap rowValue)
  | _ => .ok []

/-- The per-result step of the exact extraction pipeline: identical to
`processResult` except that its rows loop (`rowsDispatchExact`) also
propagates the `OverflowError` from `float(...)`. -/
def processResultExact (result : JVal) : Except String (List ℚ) :=
  match result with
  | .obj kvs =>
      match (if pyTruthy (objGet kvs "columns") then objGet kvs "columns"
             else .obj []) with
      | .obj ckvs =>
          if pyTruthy (regionOf ckvs) = true ∧
              pyUpper (pyStr (regionOf ckvs)) ≠ NETWORK_REGION then
            .ok []
          else
            rowsDispatchExact (if pyTruthy (objGet kvs "data")
              then objGet kvs "data" else .arr [])
      | _ => .error "AttributeError"
  | _ => .ok []

/-- The per-series step of the exact extraction pipeline (same shell as
`processSeries`, dispatching to `processResultExact`). -/
def processSeriesExact (series : JVal) : Except String (List ℚ) :=
  match series with
  | .obj kvs =>
      if metricMatches (objGet kvs "metric") then
        match objGet kvs "results" with
        | .arr rs => collectE processResultExact rs
        | _ => .ok []
      else .ok []
  | _ => .ok []

/-- The exact embedding of `_extract_prices` (`app.py` lines 56–94): it
refines `extract_prices` by also propagating the `OverflowError` that
CPython's `float()` raises on an int beyond double range, the one raise
path the exact-rational idealization of `extract_prices` does not
track. -/
def extract_prices_exact (payload : JVal) : Except String (List ℚ) :=
  let data : JVal :=
    match payload with
    | .obj kvs => objGet kvs "data"
    | _ => .arr []
  let series_list : List JVal :=
    match data with
    | .arr xs => xs
    | _ => []
  collectE processSeriesExact series_list

/-- Whether none of the rows in this rows value raises in `float(...)`
(vacuously true for a non-list rows value, which is skipped). -/
def rowsNoRaiseVal (v : JVal) : Bool :=
  match v with
  | .arr rs => rs.all (fun row => !rowRaises row)
  | _ => true

/-- Whether none of the rows this result would iterate over raises in
`float(...)`. -/
def rowsNoRaise (result : JVal) : Bool :=
  match result with
  | .obj kvs =>
      rowsNoRaiseVal (if pyTruthy (objGet kvs "data") then objGet kvs "data"
                      else .arr [])
  | _ => true

/-- Decidable well-formedness of one result for the totality theorem:
its `columns` entry is falsy or a dict, and none of its rows overflows
in `float(...)`. -/
def resultOkExact (result : JVal) : Bool :=
  resultColsOk result && rowsNoRaise result

/-- Every result reachable inside one series satisfies `resultOkExact`. -/
def seriesOkExact (series : JVal) : Bool :=
  match series with
  | .obj kvs =>
      match objGet kvs "results" with
      | .arr rs => rs.all resultOkExact
      | _ => true
  | _ => true

/-- Every result reachable in the payload satisfies `resultOkExact`. -/
def payloadOkExact (payload : JVal) : Bool :=
  match payload with
  | .obj kvs =>
      match objGet kvs "data" with
      | .arr ss => ss.all seriesOkExact
      | _ => true
  | _ => true

/- ----------------------------------------------------------------- -/
/- General lemmas                                                    -/
/- ----------------------------------------------------------------- -/

/-- The executable `pyUpper` agrees with `String.toUpper`. -/
theorem pyUpper_eq_toUpper (s : String) : pyUpper s = s.toUpper := by
  simp [pyUpper, String.toUpper, String.map_eq]

/-- A key that is absent reads as `None`. -/
theorem objGet_of_not_hasKey (kvs : List (String × JVal)) (k : String)
    (h : hasKey kvs k = false) : objGet kvs k = .null := by
  unfold hasKey at h
  unfold objGet
  cases hf : kvs.find? (fun p => p.1 == k) with
  | none => rfl
  | some p => rw [hf] at h; simp at h

/- ----------------------------------------------------------------- -/
/- Claim theorems                                                    -/
/- ----------------------------------------------------------------- -/

/-- C2: the claim asserts that for months outside both the summer set
and the winter set `calculate_local_price` returns the off-peak rate
56.688 $/MWh and is total.  The code disagrees: its outer `if` has no
`else` branch, so for such months the Python function falls off the end
and returns `None` — never the off-peak rate.  This theorem evaluates
the code on that region of the input space. -/
theorem calculate_local_price_nonseasonal_none (m h : ℕ)
    (h1 : m ∉ ([11, 12, 1, 2, 3] : List ℕ))
    (h2 : m ∉ ([6, 7, 8] : List ℕ)) :
    calculate_local_price ⟨m, h⟩ = none ∧
      calculate_local_price ⟨m, h⟩ ≠ some OFFPEAK_CHARGE := by
  have hnone : calculate_local_price ⟨m, h⟩ = none := by
    unfold calculate_local_price
    simp only
    rw [if_neg (not_or.mpr ⟨h1, h2⟩)]
  exact ⟨hnone, by rw [hnone]; exact fun hc => Option.noConfusion hc⟩

/-- Witness for `calculate_local_price_nonseasonal_none` at the spec's
own example, 2025-04-15T16:00 (month 4, hour 16). -/
theorem calculate_local_price_nonseasonal_none_witness :
    calculate_local_price ⟨4, 16⟩ = none ∧
      calculate_local_price ⟨4, 16⟩ ≠ some OFFPEAK_CHARGE :=
  calculate_local_price_nonseasonal_none 4 16 (by decide) (by decide)

/-- C4: for every month in the summer set `{11, 12, 1, 2, 3}` or the
winter set `{6, 7, 8}`, `calculate_local_price` returns the peak rate
321.695 $/MWh exactly when `15 ≤ hour < 21`, and the off-peak rate
56.688 $/MWh for every other hour; in particular month 7 hour 16 yields
321.695 and month 7 hour 10 yields 56.688. -/
theorem calculate_local_price_seasonal (m h : ℕ)
    (hm : m ∈ ([11, 12, 1, 2, 3] : List ℕ) ∨ m ∈ ([6, 7, 8] : List ℕ)) :
    calculate_local_price ⟨m, h⟩ =
        some (if 15 ≤ h ∧ h < 21 then (321.695 : ℚ) else (56.688 : ℚ)) ∧
      calculate_local_price ⟨7, 16⟩ = some (321.695 : ℚ) ∧
      calculate_local_price ⟨7, 10⟩ = some (56.688 : ℚ) := by
  refine ⟨?_, by norm_num [calculate_local_price, PEAK_CHARGE],
    by norm_num [calculate_local_price, OFFPEAK_CHARGE]⟩
  unfold calculate_local_price
  simp only
  rw [if_pos hm]
  split_ifs with hh
  · norm_num [PEAK_CHARGE]
  · norm_num [OFFPEAK_CHARGE]

/-- Witness for `calculate_local_price_seasonal` at month 7, hour 16. -/
theorem calculate_local_price_seasonal_witness :
    calculate_local_price ⟨7, 16⟩ =
        some (if 15 ≤ 16 ∧ 16 < 21 then (321.695 : ℚ) else (56.688 : ℚ)) ∧
      calculate_local_price ⟨7, 16⟩ = some (321.695 : ℚ) ∧
      calculate_local_price ⟨7, 10⟩ = some (56.688 : ℚ) :=
  calculate_local_price_seasonal 7 16 (by decide)

/-- C7: when neither credential variable holds a non-empty value, the
endpoint fails with the 500 server-configuration error, and the outbound
network call is never attempted (the second component is `false`, and
the result does not depend on the upstream outcome at all). -/
theorem get_average_price_missing_credentials
    (tokenVar keyVar : Option String) (up : UpstreamOutcome)
    (h1 : tokenTruthy tokenVar = false) (h2 : tokenTruthy keyVar = false) :
    get_average_price tokenVar keyVar up =
      (.httpError 500
        "OPENELECTRICITY_API_TOKEN or OPEN_ELECTRICITY_API_KEY is not set",
       false) := by
  have hres : tokenTruthy (resolveToken tokenVar keyVar) = false := by
    unfold resolveToken
    cases tokenVar with
    | none => exact h2
    | some s =>
        have hs : s = "" := by
          unfold tokenTruthy at h1
          simpa using h1
        simp [hs, h2]
  unfold get_average_price
  rw [hres]
  simp

/-- Witness for `get_average_price_missing_credentials`: first variable
unset, second set to the empty string. -/
theorem get_average_price_missing_credentials_witness :
    get_average_price none (some "") (.transportError "boom") =
      (.httpError 500
        "OPENELECTRICITY_API_TOKEN or OPEN_ELECTRICITY_API_KEY is not set",
       false) :=
  get_average_price_missing_credentials none (some "") (.transportError "boom")
    (by decide) (by decide)

/-- C8: with a credential configured, an upstream response with status
≥ 400 is forwarded with the same status code and `response.text` as the
body, and a transport-level failure becomes a 502 wrapping the transport
error message. -/
theorem get_average_price_upstream_errors
    (tokenVar keyVar : Option String)
    (htok : tokenTruthy (resolveToken tokenVar keyVar) = true) :
    (∀ r : UpstreamResponse, 400 ≤ r.status_code →
        get_average_price tokenVar keyVar (.response r) =
          (.httpError r.status_code r.text, true)) ∧
    (∀ msg : String,
        get_average_price tokenVar keyVar (.transportError msg) =
          (.httpError 502 ("Upstream request failed: " ++ msg), true)) := by
  constructor
  · intro r hr
    unfold get_average_price
    rw [htok]
    simp [hr]
  · intro msg
    unfold get_average_price
    rw [htok]
    simp

/-- Witness for `get_average_price_upstream_errors`: a 503 upstream
response is forwarded verbatim and a transport error becomes a 502. -/
theorem get_average_price_upstream_errors_witness :
    get_average_price (some "tok") none (.response ⟨503, "upstream down", .null⟩) =
        (.httpError 503 "upstream down", true) ∧
      get_average_price (some "tok") none (.transportError "timeout") =
        (.httpError 502 ("Upstream request failed: " ++ "timeout"), true) :=
  ⟨(get_average_price_upstream_errors (some "tok") none (by decide)).1
      ⟨503, "upstream down", .null⟩ (by decide),
   (get_average_price_upstream_errors (some "tok") none (by decide)).2 "timeout"⟩

/-- C1: with a credential configured and a successful upstream response
whose payload yields at least 3 extracted values, the endpoint returns
the success body: `price_points` is exactly the trailing 3 extracted
values in document order (a length-3 suffix of the extracted list),
`points_used` is 3, `average_price` is their sum divided by 3, together
with the fixed `"NSW1"` / `"5m"` / `"$ / MWh"` metadata. -/
theorem get_average_price_success
    (tokenVar keyVar : Option String) (r : UpstreamResponse) (vs : List ℚ)
    (htok : tokenTruthy (resolveToken tokenVar keyVar) = true)
    (hst : r.status_code < 400)
    (hex : extract_prices r.json = .ok vs)
    (hlen : 3 ≤ vs.length) :
    get_average_price tokenVar keyVar (.response r) =
        (.ok { network_region := "NSW1"
               interval := "5m"
               points_used := 3
               price_points := vs.drop (vs.length - 3)
               average_price := (vs.drop (vs.length - 3)).sum / 3
               units := "$ / MWh" }, true) ∧
      (vs.drop (vs.length - 3)).length = 3 ∧
      vs.drop (vs.length - 3) <:+ vs := by
  have hd : (vs.drop (vs.length - 3)).length = 3 := by
    rw [List.length_drop]
    omega
  refine ⟨?_, hd, List.drop_suffix _ _⟩
  unfold get_average_price
  rw [htok]
  simp only [Bool.true_eq_false, if_false]
  rw [if_neg (by omega : ¬ 400 ≤ r.status_code), hex]
  simp only [MIN_POINTS]
  rw [if_neg (by omega : ¬ vs.length < 3)]
  simp only [NETWORK_REGION, INTERVAL, hd]
  norm_num

/-- Witness for `get_average_price_success`: four extracted points
`[10, 20, 30, 40]`, of which the last three average to 30. -/
theorem get_average_price_success_witness :
    get_average_price (some "tok") none
        (.response ⟨200, "",
          mkPayload1 (.obj [("region", .str "NSW1")])
            [mkRow 10, mkRow 20, mkRow 30, mkRow 40]⟩) =
        (.ok { network_region := "NSW1"
               interval := "5m"
               points_used := 3
               price_points := ([10, 20, 30, 40] : List ℚ).drop
                 (([10, 20, 30, 40] : List ℚ).length - 3)
               average_price := (([10, 20, 30, 40] : List ℚ).drop
                 (([10, 20, 30, 40] : List ℚ).length - 3)).sum / 3
               units := "$ / MWh" }, true) ∧
      (([10, 20, 30, 40] : List ℚ).drop
        (([10, 20, 30, 40] : List ℚ).length - 3)).length = 3 ∧
      ([10, 20, 30, 40] : List ℚ).drop
        (([10, 20, 30, 40] : List ℚ).length - 3) <:+ [10, 20, 30, 40] :=
  get_average_price_success (some "tok") none
    ⟨200, "",
      mkPayload1 (.obj [("region", .str "NSW1")])
        [mkRow 10, mkRow 20, mkRow 30, mkRow 40]⟩
    [10, 20, 30, 40] (by decide) (by decide) (by rfl) (by decide)

/-- C3: with a credential configured and a successful upstream response
whose payload yields fewer than 3 extracted values, the endpoint raises
the 502 insufficient-data error — so it never returns a 200 body built
from fewer than 3 points. -/
theorem get_average_price_insufficient
    (tokenVar keyVar : Option String) (r : UpstreamResponse) (vs : List ℚ)
    (htok : tokenTruthy (resolveToken tokenVar keyVar) = true)
    (hst : r.status_code < 400)
    (hex : extract_prices r.json = .ok vs)
    (hlen : vs.length < 3) :
    get_average_price tokenVar keyVar (.response r) =
      (.httpError 502 "Upstream response did not contain enough price points",
       true) := by
  unfold get_average_price
  rw [htok]
  simp only [Bool.true_eq_false, if_false]
  rw [if_neg (by omega : ¬ 400 ≤ r.status_code), hex]
  simp only [MIN_POINTS]
  rw [if_pos (by omega : vs.length < 3)]

/-- Witness for `get_average_price_insufficient`: a payload carrying only
two matching rows. -/
theorem get_average_price_insufficient_witness :
    get_average_price (some "tok") none
        (.response ⟨200, "",
          mkPayload1 (.obj [("region", .str "NSW1")]) [mkRow 10, mkRow 20]⟩) =
      (.httpError 502 "Upstream response did not contain enough price points",
       true) :=
  get_average_price_insufficient (some "tok") none
    ⟨200, "", mkPayload1 (.obj [("region", .str "NSW1")]) [mkRow 10, mkRow 20]⟩
    [10, 20] (by decide) (by decide) (by rfl) (by decide)

/-- Extraction from a one-series, one-result payload reduces to
processing that result. -/
theorem extract_prices_mkPayload1 (cols : JVal) (rows : List JVal) :
    extract_prices (mkPayload1 cols rows) = processResult (mkResult cols rows) := by
  have hred : extract_prices (mkPayload1 cols rows) =
      ((processResult (mkResult cols rows)).bind fun a => Except.ok (a ++ [])).bind
        fun v => Except.ok (v ++ []) := rfl
  rw [hred]
  cases h : processResult (mkResult cols rows) with
  | error e => rfl
  | ok v =>
      show Except.ok ((v ++ []) ++ []) = Except.ok v
      simp

/-- Evaluating `processResult` on a result whose `columns` value is a dict: the
result is excluded exactly when the region chain is truthy and its
upper-cased string differs from `"NSW1"`; otherwise all rows contribute
through `rowValue`. -/
theorem processResult_mkResult_obj (ckvs : List (String × JVal)) (rows : List JVal) :
    processResult (mkResult (.obj ckvs) rows) =
      if pyTruthy (regionOf ckvs) = true ∧
          pyUpper (pyStr (regionOf ckvs)) ≠ NETWORK_REGION then
        .ok []
      else
        .ok (rows.filterMap rowValue) := by
  cases ckvs with
  | nil =>
      cases rows with
      | nil => rfl
      | cons a as => rfl
  | cons p ps =>
      show (if pyTruthy (regionOf (p :: ps)) = true ∧
              pyUpper (pyStr (regionOf (p :: ps))) ≠ NETWORK_REGION then
              (.ok [] : Except String (List ℚ))
            else
              (let rowsRaw := objGet [("columns", JVal.obj (p :: ps)),
                ("data", JVal.arr rows)] "data"
               let rows2 := if pyTruthy rowsRaw then rowsRaw else .arr []
               match rows2 with
               | .arr rs => .ok (rs.filterMap rowValue)
               | _ => .ok [])) = _
      cases rows with
      | nil => split_ifs <;> rfl
      | cons a as => split_ifs <;> rfl

/-- C5 counterexample: the empty-string region tag upper-cases to `""`,
which is not `"NSW1"`, yet its rows are included — the empty string is
falsy, so line 77's `if region and ...` never fires.  This refutes the
claim that every result whose region tag upper-cases to a string other
than `"NSW1"` is excluded. -/
theorem extract_prices_empty_region_tag_included :
    ("" : String).toUpper ≠ "NSW1" ∧
      extract_prices (mkPayload1 (.obj [("region", .str "")]) [mkRow 5]) =
        .ok [5] := by
  constructor
  · rw [← pyUpper_eq_toUpper]
    decide
  · rfl

/-- C5 (amended): for a result whose `columns` carry a string region
tag `s`, the rows are included exactly when `s` upper-cases to `"NSW1"`
or `s` is the empty string (a falsy tag, treated like an absent region);
every non-empty tag that upper-cases to a different string is excluded,
regardless of case. -/
theorem extract_prices_region_case_insensitive (s : String) (rows : List JVal) :
    extract_prices (mkPayload1 (.obj [("region", .str s)]) rows) =
      .ok (if s = "" ∨ s.toUpper = "NSW1" then rows.filterMap rowValue else []) := by
  rw [extract_prices_mkPayload1, processResult_mkResult_obj]
  have hreg : regionOf [("region", .str s)] =
      if (s != "") = true then .str s else .null := rfl
  by_cases hs : s = ""
  · subst hs
    simp [hreg, pyTruthy]
  · have hsn : (s != "") = true := by simpa using hs
    rw [hreg, if_pos hsn]
    by_cases hu : s.toUpper = "NSW1"
    · rw [if_neg, if_pos (Or.inr hu)]
      rw [not_and]
      intro _
      rw [not_not, pyStr, pyUpper_eq_toUpper, NETWORK_REGION]
      exact hu
    · rw [if_pos, if_neg]
      · rw [not_or]
        exact ⟨hs, hu⟩
      · refine ⟨by simpa [pyTruthy] using hsn, ?_⟩
        rw [pyStr, pyUpper_eq_toUpper, NETWORK_REGION]
        exact hu

/-- Witness for `extract_prices_region_case_insensitive`: the tag
`"nsw1"` upper-cases to `"NSW1"` and its single row is included. -/
theorem extract_prices_region_case_insensitive_witness :
    extract_prices (mkPayload1 (.obj [("region", .str "nsw1")]) [mkRow 7]) =
      .ok (if ("nsw1" : String) = "" ∨ ("nsw1" : String).toUpper = "NSW1"
           then ([mkRow 7] : List JVal).filterMap rowValue else []) :=
  extract_prices_region_case_insensitive "nsw1" [mkRow 7]

/-- C6: a result carrying none of the keys `region`, `network_region`
or `code` in its column metadata has all its rows included (the region
chain evaluates to `None`, which is falsy) when the series metric is
`"price"`. -/
theorem extract_prices_no_region_included
    (ckvs : List (String × JVal)) (rows : List JVal)
    (h1 : hasKey ckvs "region" = false)
    (h2 : hasKey ckvs "network_region" = false)
    (h3 : hasKey ckvs "code" = false) :
    extract_prices (mkPayload1 (.obj ckvs) rows) =
      .ok (rows.filterMap rowValue) := by
  rw [extract_prices_mkPayload1, processResult_mkResult_obj]
  have hr : regionOf ckvs = .null := by
    unfold regionOf
    rw [objGet_of_not_hasKey _ _ h1, objGet_of_not_hasKey _ _ h2,
      objGet_of_not_hasKey _ _ h3]
    rfl
  rw [hr]
  simp [pyTruthy]

/-- Witness for `extract_prices_no_region_included`: columns holding
only a `unit` entry; both rows are included. -/
theorem extract_prices_no_region_included_witness :
    extract_prices (mkPayload1 (.obj [("unit", .str "$/MWh")])
        [mkRow 11, mkRow 12]) =
      .ok (([mkRow 11, mkRow 12] : List JVal).filterMap rowValue) :=
  extract_prices_no_region_included [("unit", .str "$/MWh")]
    [mkRow 11, mkRow 12] (by decide) (by decide) (by decide)

/-- C9 counterexample: in the row `\x7b"value": 0, "v": 0\x7d` neither
`price` nor `v` holds a non-zero number, yet the row contributes `0.0`:
the truthiness chain falls through the falsy `value` and absent `price`
and returns the raw `v` entry, which is numeric.  This refutes the
claim that such a row contributes no price point unless `price` or `v`
holds a non-zero number. -/
theorem object_row_zero_v_contributes :
    rowValue (.obj [("value", .num 0), ("v", .num 0)]) = some 0 ∧
      extract_prices (mkPayload1 (.obj [("region", .str "NSW1")])
        [.obj [("value", .num 0), ("v", .num 0)]]) = .ok [0] ∧
      rowValue (.obj [("value", .num 0)]) = none := by
  exact ⟨rfl, rfl, rfl⟩

/-- C9 (amended): an object row whose `value` entry is `0` and whose
`price` entry is falsy (absent, `None`, `0`, …) contributes exactly the
numeric reading of its raw `v` entry — so nothing when `v` is absent or
non-numeric, but `0.0` when `v` is the number `0`; an array-pair row
`[timestamp, 0]`, by contrast, always contributes `0.0`. -/
theorem object_row_zero_value_chain (kvs : List (String × JVal)) (ts : JVal)
    (hval : objGet kvs "value" = .num 0)
    (hpr : pyTruthy (objGet kvs "price") = false) :
    rowValue (.obj kvs) = asNum (objGet kvs "v") ∧
      rowValue (.arr [ts, .num 0]) = some 0 := by
  constructor
  · show asNum (pyOr (objGet kvs "value")
      (pyOr (objGet kvs "price") (objGet kvs "v"))) = asNum (objGet kvs "v")
    rw [hval]
    have h0 : pyOr (JVal.num 0) (pyOr (objGet kvs "price") (objGet kvs "v")) =
        pyOr (objGet kvs "price") (objGet kvs "v") := by
      unfold pyOr
      simp [pyTruthy]
    rw [h0]
    unfold pyOr
    rw [hpr]
    simp
  · show (if 2 ≤ ([ts, .num 0] : List JVal).length
      then (([ts, .num 0] : List JVal).get? 1).bind asNum else none) = some 0
    simp [asNum]

/-- Witness for `object_row_zero_value_chain`: `value = 0`, `price = 0`,
`v = 7` contributes `asNum` of the `v` entry, i.e. `7.0`. -/
theorem object_row_zero_value_chain_witness :
    rowValue (.obj [("value", .num 0), ("price", .num 0), ("v", .num 7)]) =
        asNum (objGet [("value", .num 0), ("price", .num 0), ("v", .num 7)] "v") ∧
      rowValue (.arr [.str "2025-01-01T00:00:00", .num 0]) = some 0 :=
  object_row_zero_value_chain [("value", .num 0), ("price", .num 0), ("v", .num 7)]
    (.str "2025-01-01T00:00:00") (by rfl) (by decide)

/-- C10 counterexample: a result whose `columns` entry is a truthy
non-dict (here the string `"oops"`) makes `_extract_prices` raise
`AttributeError` at `cols.get("region")` — the function is not total
over arbitrary JSON-shaped payloads. -/
theorem extract_prices_truthy_nondict_columns_raises :
    extract_prices (mkPayload1 (.str "oops") [mkRow 1]) =
      .error "AttributeError" := by
  rfl

/-- The rows dispatch at the end of `processResultExact` succeeds on
every rows value none of whose rows overflows in `float(...)`. -/
theorem rowsDispatchExact_ok (v : JVal)
    (h : rowsNoRaiseVal v = true) :
    extractionOk (rowsDispatchExact v) = true := by
  cases v with
  | arr rs =>
      have h2 : rs.all (fun row => !rowRaises row) = true := h
      have hna : ¬ (rs.any rowRaises = true) := by
        intro hany
        obtain ⟨x, hx, hpx⟩ := List.any_eq_true.mp hany
        have hall := List.all_eq_true.mp h2 x hx
        rw [hpx] at hall
        simp at hall
      show extractionOk
        (if rs.any rowRaises then
          (Except.error "OverflowError" : Except String (List ℚ))
         else Except.ok (rs.filterMap rowValue)) = true
      rw [if_neg hna]
      rfl
  | null => rfl
  | bool b => rfl
  | num q => rfl
  | int n => rfl
  | str s => rfl
  | obj kvs => rfl

/-- Every result whose `columns` entry is falsy or a dict and whose
rows never overflow in `float(...)` is processed without raising. -/
theorem processResultExact_ok (r : JVal)
    (h : resultOkExact r = true) : extractionOk (processResultExact r) = true := by
  cases r with
  | null => rfl
  | bool b => rfl
  | num q => rfl
  | int n => rfl
  | str s => rfl
  | arr xs => rfl
  | obj kvs =>
      have hsplit : resultColsOk (JVal.obj kvs) = true ∧
          rowsNoRaise (JVal.obj kvs) = true := by
        simpa [resultOkExact, Bool.and_eq_true] using h
      have h2 : (!pyTruthy (objGet kvs "columns") ||
          (match objGet kvs "columns" with
           | JVal.obj _ => true
           | _ => false)) = true := hsplit.1
      have h3 : rowsNoRaiseVal (if pyTruthy (objGet kvs "data")
          then objGet kvs "data" else JVal.arr []) = true := hsplit.2
      show extractionOk
        (match (if pyTruthy (objGet kvs "columns") then objGet kvs "columns"
                else JVal.obj []) with
         | JVal.obj ckvs =>
             if pyTruthy (regionOf ckvs) = true ∧
                 pyUpper (pyStr (regionOf ckvs)) ≠ NETWORK_REGION then
               (Except.ok [] : Except String (List ℚ))
             else
               rowsDispatchExact (if pyTruthy (objGet kvs "data")
                 then objGet kvs "data" else JVal.arr [])
         | _ => Except.error "AttributeError") = true
      by_cases hc : pyTruthy (objGet kvs "columns") = true
      · rw [hc] at h2
        simp only [Bool.not_true, Bool.false_or] at h2
        rw [if_pos hc]
        cases hcv : objGet kvs "columns" with
        | obj ckvs =>
            show extractionOk
              (if pyTruthy (regionOf ckvs) = true ∧
                  pyUpper (pyStr (regionOf ckvs)) ≠ NETWORK_REGION then
                (Except.ok [] : Except String (List ℚ))
               else
                rowsDispatchExact (if pyTruthy (objGet kvs "data")
                  then objGet kvs "data" else JVal.arr [])) = true
            by_cases hreg : pyTruthy (regionOf ckvs) = true ∧
              pyUpper (pyStr (regionOf ckvs)) ≠ NETWORK_REGION
            · rw [if_pos hreg]
              rfl
            · rw [if_neg hreg]
              exact rowsDispatchExact_ok _ h3
        | null => rw [hcv] at h2; simp at h2
        | bool b => rw [hcv] at h2; simp at h2
        | num q => rw [hcv] at h2; simp at h2
        | int n => rw [hcv] at h2; simp at h2
        | str t => rw [hcv] at h2; simp at h2
        | arr ys => rw [hcv] at h2; simp at h2
      · rw [if_neg hc]
        show extractionOk
          (if pyTruthy (regionOf []) = true ∧
              pyUpper (pyStr (regionOf [])) ≠ NETWORK_REGION then
            (Except.ok [] : Except String (List ℚ))
           else
            rowsDispatchExact (if pyTruthy (objGet kvs "data")
              then objGet kvs "data" else JVal.arr [])) = true
        rw [if_neg (by decide)]
        exact rowsDispatchExact_ok _ h3

/-- Collecting over a list succeeds when each element succeeds. -/
theorem collectE_ok (f : JVal → Except String (List ℚ)) (xs : List JVal)
    (h : ∀ x ∈ xs, extractionOk (f x) = true) :
    extractionOk (collectE f xs) = true := by
  induction xs with
  | nil => rfl
  | cons a as ih =>
      have ha := h a (List.mem_cons_self a as)
      have hrest := ih (fun x hx => h x (List.mem_cons_of_mem _ hx))
      cases hfa : f a with
      | error e => rw [hfa] at ha; simp [extractionOk] at ha
      | ok v =>
          cases hca : collectE f as with
          | error e => rw [hca] at hrest; simp [extractionOk] at hrest
          | ok w =>
              unfold collectE
              rw [hfa]
              show extractionOk ((collectE f as).bind
                fun rest => Except.ok (v ++ rest)) = true
              rw [hca]
              rfl

/-- Every series all of whose results satisfy `resultOkExact` is
processed without raising. -/
theorem processSeriesExact_ok (s : JVal)
    (h : seriesOkExact s = true) : extractionOk (processSeriesExact s) = true := by
  cases s with
  | null => rfl
  | bool b => rfl
  | num q => rfl
  | int n => rfl
  | str t => rfl
  | arr xs => rfl
  | obj kvs =>
      have h2 : (match objGet kvs "results" with
        | JVal.arr rs => rs.all resultOkExact
        | _ => true) = true := h
      show extractionOk
        (if metricMatches (objGet kvs "metric") then
          match objGet kvs "results" with
          | JVal.arr rs => collectE processResultExact rs
          | _ => (Except.ok [] : Except String (List ℚ))
         else Except.ok []) = true
      by_cases hm : metricMatches (objGet kvs "metric") = true
      · rw [if_pos hm]
        cases hres : objGet kvs "results" with
        | arr rs =>
            rw [hres] at h2
            exact collectE_ok processResultExact rs
              (fun x hx => processResultExact_ok x
                (by simpa using List.all_eq_true.mp h2 x hx))
        | null => rfl
        | bool b => rfl
        | num q => rfl
        | int n => rfl
        | str t => rfl
        | obj o => rfl
      · rw [if_neg hm]
        rfl

set_option maxRecDepth 40000 in
/-- A well-columned payload carrying the integer row value `10 ^ 400` —
beyond double range — makes `_extract_prices` raise `OverflowError` at
the `float(row[1])` call on `app.py` line 86, even though every
`columns` entry is falsy or a dict; the exact pipeline propagates the
raise that the exact-rational idealization of `extract_prices` reads
through. -/
theorem extract_prices_exact_overflow_raises :
    extract_prices_exact
        (mkPayload1 (.obj [])
          [.arr [.str "2025-01-01T00:00:00", .int (10 ^ 400)]]) =
      .error "OverflowError" ∧
    extract_prices
        (mkPayload1 (.obj [])
          [.arr [.str "2025-01-01T00:00:00", .int (10 ^ 400)]]) =
      .ok [(10 ^ 400 : ℚ)] := by
  constructor
  · decide
  · decide

/-- C10 (amended): `_extract_prices` never raises — returning a
(possibly empty) list of floats and skipping every malformed element
(non-dict payloads, non-list `data`, non-dict series or results,
non-list rows, rows of unexpected shape) — on every payload in which
each result's `columns` entry is falsy or a dict and no row value
reaching `float(...)` is an integer beyond double range.  Outside that
domain it does raise: a truthy non-dict `columns` entry raises
`AttributeError` at `cols.get("region")`, and an overflowing integer
row value raises `OverflowError` inside `float(...)`. -/
theorem extract_prices_exact_never_raises (p : JVal)
    (h : payloadOkExact p = true) :
    extractionOk (extract_prices_exact p) = true := by
  cases p with
  | null => rfl
  | bool b => rfl
  | num q => rfl
  | int n => rfl
  | str s => rfl
  | arr xs => rfl
  | obj kvs =>
      have h2 : (match objGet kvs "data" with
        | JVal.arr ss => ss.all seriesOkExact
        | _ => true) = true := h
      show extractionOk (collectE processSeriesExact
        (match objGet kvs "data" with
         | JVal.arr xs => xs
         | _ => [])) = true
      cases hd : objGet kvs "data" with
      | arr ss =>
          rw [hd] at h2
          exact collectE_ok processSeriesExact ss
            (fun x hx => processSeriesExact_ok x
              (by simpa using List.all_eq_true.mp h2 x hx))
      | null => rfl
      | bool b => rfl
      | num q => rfl
      | int n => rfl
      | str t => rfl
      | obj o => rfl

set_option maxRecDepth 40000 in
/-- Witness for `extract_prices_exact_never_raises`: a payload full of
malformed elements (a non-dict series, a junk result, null columns, a
non-list rows entry, rows of unexpected shape, and in-range integer
rows) still extracts without raising. -/
theorem extract_prices_exact_never_raises_witness :
    extractionOk (extract_prices_exact (JVal.obj [("data", JVal.arr
      [JVal.num 5,
       JVal.obj [("metric", JVal.str "price"), ("results", JVal.arr
         [JVal.str "junk",
          JVal.obj [("columns", JVal.null), ("data", JVal.str "zz")],
          JVal.obj [("columns", JVal.obj [("region", JVal.num 0)]),
                    ("data", JVal.arr
                      [JVal.null, JVal.arr [JVal.num 1], JVal.str "x",
                       JVal.num 3, JVal.int 42,
                       JVal.arr [JVal.str "t", JVal.int 7]])]])]])])) =
      true :=
  extract_prices_exact_never_raises _ (by decide)
